import Mathlib

/-! # Verification of the MEXC / Quanto spread-monitor core (bot.py)

Shallow embedding of the symbol mapper (fetch_quanto_price, try_quanto_mappings),
the per-pair workflow (process_pair) and the polling-cycle admission gate of
poll_loop. Python floats are modelled as rationals, Python dicts keyed by pair
symbol as functions from String to Option of a rational, and the venue-B depth
endpoint as an oracle from market code to a DepthResult.
-/

namespace Bot

/-- A Python dict mapping a pair symbol to a float value. -/
abbrev PriceMap := String → Option ℚ

/-- The empty dict. -/
def emptyMap : PriceMap := fun _ => none

/-- Dict assignment d[k] = v. -/
def mapSet (m : PriceMap) (k : String) (v : ℚ) : PriceMap :=
  fun s => if s = k then some v else m s

/-- Python truthiness of an optional float: None and 0.0 are falsy.
This is the guard used by process_pair on bot.py lines 151 and 155. -/
def truthy : Option ℚ → Bool
  | none => false
  | some x => if x = 0 then false else true

/-- Outcome of one GET of the venue-B depth endpoint for one market code,
as observed by fetch_quanto_price (bot.py lines 76-85). -/
inductive DepthResult where
  /-- the request raised: network error, timeout, or a non-JSON body. -/
  | netError
  /-- JSON arrived but the success flag is false or missing, or data is missing. -/
  | badPayload
  /-- data is present but the bids or the asks list is empty. -/
  | emptyBook
  /-- a usable top-of-book level: best bid price and best ask price. -/
  | ok (bid ask : ℚ)
deriving DecidableEq

/-- bot.py lines 74-88, fetch_quanto_price: every failure maps to none
(the except handler on line 87 and the fall-through on line 86), and a
usable book returns the midpoint (bid + ask) / 2 (line 85). -/
def fetch_quanto_price (env : String → DepthResult) (market_code : String) : Option ℚ :=
  match env market_code with
  | DepthResult.ok bid ask => some ((bid + ask) / 2)
  | _ => none

/-- bot.py lines 91-98: the ordered candidate market codes for one base asset. -/
def candidates (base_symbol : String) : List String :=
  [base_symbol ++ "-USD-SWAP-LIN",
   base_symbol ++ "-USDT-SWAP-LIN",
   base_symbol ++ "-USD-SWAP",
   base_symbol ++ "-USDT-SWAP",
   base_symbol ++ "-USD",
   base_symbol ++ "-USDT"]

/-- bot.py lines 99-103: the candidate loop of try_quanto_mappings, returning
on the first candidate whose lookup is not None. -/
def try_mappings_loop (env : String → DepthResult) : List String → Option String × Option ℚ
  | [] => (none, none)
  | c :: rest =>
    match fetch_quanto_price env c with
    | some p => (some c, some p)
    | none => try_mappings_loop env rest

/-- bot.py lines 90-103, try_quanto_mappings. -/
def try_quanto_mappings (env : String → DepthResult) (base_symbol : String) :
    Option String × Option ℚ :=
  try_mappings_loop env (candidates base_symbol)

/-- bot.py line 157: the spread formula of process_pair. -/
def computeSpread (venueAPrice venueBPrice : ℚ) : ℚ :=
  (venueBPrice - venueAPrice) / venueAPrice * 100

/-- bot.py line 153: Python symbol.split("/")[0]. -/
def baseOf (symbol : String) : String :=
  (symbol.splitOn "/").headD symbol

/-- The effects of one run of process_pair: the two dicts it may mutate and
whether the Telegram alert fired. -/
structure PairOutcome where
  prices : PriceMap
  last_spread : PriceMap
  alert : Bool

/-- bot.py lines 148-168, process_pair on its exception-free path: skip on a
falsy venue-A price (line 151) or a falsy mapper mid price (line 155);
otherwise compute the spread (line 157), write it to the prices dict
(line 158), fire the alert iff the magnitude crosses the threshold and
exceeds the stored previous magnitude (lines 160-161), and unconditionally
overwrite the stored value (line 166). -/
def process_pair (threshold : ℚ) (symbol : String) (mexc_p : Option ℚ)
    (env : String → DepthResult) (prices last_spread : PriceMap) : PairOutcome :=
  if truthy mexc_p = false then ⟨prices, last_spread, false⟩
  else
    let mp := mexc_p.getD 0
    let q := try_quanto_mappings env (baseOf symbol)
    if truthy q.2 = false then ⟨prices, last_spread, false⟩
    else
      let qp := q.2.getD 0
      let spread := (qp - mp) / mp * 100
      let prev := (last_spread symbol).getD 0
      ⟨mapSet prices symbol spread, mapSet last_spread symbol spread,
        if |spread| ≥ threshold ∧ |spread| > |prev| then true else false⟩

/-- The three stages of process_pair at which claim C7 says an exception may
arise: the venue-A fetch (line 150), the symbol mapping (line 154) and the
spread arithmetic (line 157). -/
inductive Stage where
  | fetchA
  | mapping
  | arith
deriving DecidableEq

/-- bot.py lines 149-166: the body of the try block of process_pair, with an
optional exception injected at one of the three stages; an Except.error value
models a raised Python exception reaching the except handler on line 167.
Each injection point sits before the dict writes on lines 158 and 166. -/
def process_pair_body (inject : Option Stage) (threshold : ℚ) (symbol : String)
    (mexc_p : Option ℚ) (env : String → DepthResult)
    (prices last_spread : PriceMap) : Except Unit PairOutcome :=
  if inject = some Stage.fetchA then Except.error ()
  else if truthy mexc_p = false then Except.ok ⟨prices, last_spread, false⟩
  else if inject = some Stage.mapping then Except.error ()
  else
    let mp := mexc_p.getD 0
    let q := try_quanto_mappings env (baseOf symbol)
    if truthy q.2 = false then Except.ok ⟨prices, last_spread, false⟩
    else if inject = some Stage.arith then Except.error ()
    else
      let qp := q.2.getD 0
      let spread := (qp - mp) / mp * 100
      let prev := (last_spread symbol).getD 0
      Except.ok ⟨mapSet prices symbol spread, mapSet last_spread symbol spread,
        if |spread| ≥ threshold ∧ |spread| > |prev| then true else false⟩

/-- bot.py lines 148-168, process_pair with its try/except wrapper: a raised
exception is caught and logged (line 167-168) and the pair is skipped with
both dicts untouched and no alert. -/
def process_pair_caught (inject : Option Stage) (threshold : ℚ) (symbol : String)
    (mexc_p : Option ℚ) (env : String → DepthResult)
    (prices last_spread : PriceMap) : PairOutcome :=
  match process_pair_body inject threshold symbol mexc_p env prices last_spread with
  | Except.ok r => r
  | Except.error _ => ⟨prices, last_spread, false⟩

/-- A depth oracle answering every market code with the same one-level book
whose bid and ask both equal p, so the midpoint is p. -/
def envMid (p : ℚ) : String → DepthResult := fun _ => DepthResult.ok p p

/-- Drive process_pair once per polling cycle over a list of target spread
values, each realised by a fixed venue-A price 100 and a venue-B book at
100 + s, threading the two dicts between cycles; returns the per-cycle alert
flags. -/
def runAlerts (threshold : ℚ) (symbol : String) :
    List ℚ → PriceMap → PriceMap → List Bool
  | [], _, _ => []
  | s :: rest, prices, last_spread =>
    let r := process_pair threshold symbol (some 100) (envMid (100 + s)) prices last_spread
    r.alert :: runAlerts threshold symbol rest r.prices r.last_spread

/-- The spread sequence of the alert-gating example in the spec. -/
def spreadSeq : List ℚ := [1 / 2, 6 / 5, 13 / 10, 9 / 10, 7 / 5]

/-- The process-wide stores: the dicts prices and last_spread local to
poll_loop (bot.py lines 118-119), and the module-level prices_cache
(line 202) that the dashboard serves. -/
structure BotState where
  prices : PriceMap
  last_spread : PriceMap
  prices_cache : PriceMap

/-- One process_pair run acting on the full store: bot.py lines 158 and 166
mutate the two poll_loop dicts; no statement in bot.py ever writes
prices_cache. -/
def process_pair_state (threshold : ℚ) (symbol : String) (mexc_p : Option ℚ)
    (env : String → DepthResult) (st : BotState) : BotState × Bool :=
  let r := process_pair threshold symbol mexc_p env st.prices st.last_spread
  (⟨r.prices, r.last_spread, st.prices_cache⟩, r.alert)

/-- bot.py lines 333-335: the dashboard price endpoint serves prices_cache. -/
def api_prices (st : BotState) : PriceMap := st.prices_cache

/-- The scheduler-visible state of one polling cycle of poll_loop: how many
per-pair coroutines the creation loop has appended (created), whether the
creation loop currently holds the semaphore (holding), how many workflows
gather has started (started) and completed (finished), and the free permits
of the semaphore (permits). -/
structure PollState where
  created : Nat
  holding : Bool
  started : Nat
  finished : Nat
  permits : Nat

/-- bot.py lines 134-139 as executed: the creation loop acquires the
semaphore (acq), appends the coroutine and releases the semaphore on leaving
the async-with block (rel); only after the loop has created all numPairs
coroutines does gather start them (start), and a start consumes NO permit
because the creation loop already released it; a started workflow may finish
at any time (finish). -/
inductive CodeStep (numPairs : Nat) : PollState → PollState → Prop where
  | acq (s : PollState) : s.holding = false → s.started = 0 → s.created < numPairs →
      1 ≤ s.permits →
      CodeStep numPairs s ⟨s.created, true, s.started, s.finished, s.permits - 1⟩
  | rel (s : PollState) : s.holding = true →
      CodeStep numPairs s ⟨s.created + 1, false, s.started, s.finished, s.permits + 1⟩
  | start (s : PollState) : s.holding = false → s.created = numPairs →
      s.started < s.created →
      CodeStep numPairs s ⟨s.created, s.holding, s.started + 1, s.finished, s.permits⟩
  | finish (s : PollState) : s.finished < s.started →
      CodeStep numPairs s ⟨s.created, s.holding, s.started, s.finished + 1, s.permits⟩

/-- States of a cycle reachable from the initial state: no coroutine created
or started and all limit permits free (bot.py line 117). -/
inductive CodeReach (limit numPairs : Nat) : PollState → Prop where
  | init : CodeReach limit numPairs ⟨0, false, 0, 0, limit⟩
  | step {s t : PollState} : CodeReach limit numPairs s → CodeStep numPairs s t →
      CodeReach limit numPairs t

/-! ## Helper lemmas -/

/-- The candidate loop returns the first candidate whose lookup succeeds. -/
theorem try_mappings_loop_eq_find (env : String → DepthResult) (l : List String) :
    try_mappings_loop env l =
      (match l.find? (fun c => (fetch_quanto_price env c).isSome) with
       | some c => (some c, fetch_quanto_price env c)
       | none => (none, none)) := by
  induction l with
  | nil => rfl
  | cons c rest ih =>
    cases h : fetch_quanto_price env c with
    | none =>
      rw [List.find?_cons_of_neg _ (by simp [h])]
      simp only [try_mappings_loop, h]
      exact ih
    | some p =>
      rw [List.find?_cons_of_pos _ (by simp [h])]
      simp only [try_mappings_loop, h]

/-- If every candidate fails, the loop returns (none, none). -/
theorem try_mappings_loop_none (env : String → DepthResult) (l : List String)
    (h : ∀ c ∈ l, fetch_quanto_price env c = none) :
    try_mappings_loop env l = (none, none) := by
  induction l with
  | nil => rfl
  | cons c rest ih =>
    have hc := h c (List.mem_cons_self c rest)
    simp only [try_mappings_loop, hc]
    exact ih (fun d hd => h d (List.mem_cons_of_mem c hd))

/-- Failing leading candidates are passed over. -/
theorem try_mappings_loop_append_none (env : String → DepthResult) (l1 l2 : List String)
    (h : ∀ c ∈ l1, fetch_quanto_price env c = none) :
    try_mappings_loop env (l1 ++ l2) = try_mappings_loop env l2 := by
  induction l1 with
  | nil => rfl
  | cons c rest ih =>
    have hc := h c (List.mem_cons_self c rest)
    simp only [List.cons_append, try_mappings_loop, hc]
    exact ih (fun d hd => h d (List.mem_cons_of_mem c hd))

/-- Keys of other pairs are never touched by process_pair. -/
theorem process_pair_other_keys (threshold : ℚ) (symbol : String) (mexc_p : Option ℚ)
    (env : String → DepthResult) (prices last_spread : PriceMap)
    (s : String) (hs : s ≠ symbol) :
    (process_pair threshold symbol mexc_p env prices last_spread).prices s = prices s
    ∧ (process_pair threshold symbol mexc_p env prices last_spread).last_spread s
        = last_spread s := by
  by_cases h1 : truthy mexc_p = false
  · simp [process_pair, h1]
  · by_cases h2 : truthy (try_quanto_mappings env (baseOf symbol)).2 = false
    · simp [process_pair, h1, h2]
    · simp [process_pair, h1, h2, mapSet, hs]

/-- An injected exception at any stage makes the caught run a pure skip. -/
theorem process_pair_caught_inject (st : Stage) (threshold : ℚ) (symbol : String)
    (mexc_p : Option ℚ) (env : String → DepthResult) (prices last_spread : PriceMap) :
    process_pair_caught (some st) threshold symbol mexc_p env prices last_spread
      = ⟨prices, last_spread, false⟩ := by
  cases st with
  | fetchA => rfl
  | mapping =>
    by_cases h : truthy mexc_p = false <;>
      simp [process_pair_caught, process_pair_body, h]
  | arith =>
    by_cases h1 : truthy mexc_p = false
    · simp [process_pair_caught, process_pair_body, h1]
    · by_cases h2 : truthy (try_quanto_mappings env (baseOf symbol)).2 = false <;>
        simp [process_pair_caught, process_pair_body, h1, h2]

/-- The uninjected caught run agrees with the plain per-pair workflow. -/
theorem process_pair_caught_none (threshold : ℚ) (symbol : String)
    (mexc_p : Option ℚ) (env : String → DepthResult) (prices last_spread : PriceMap) :
    process_pair_caught none threshold symbol mexc_p env prices last_spread
      = process_pair threshold symbol mexc_p env prices last_spread := by
  by_cases h1 : truthy mexc_p = false
  · simp [process_pair_caught, process_pair_body, process_pair, h1]
  · by_cases h2 : truthy (try_quanto_mappings env (baseOf symbol)).2 = false <;>
      simp [process_pair_caught, process_pair_body, process_pair, h1, h2]

/-- The creation loop of the cycle appends k coroutines, each under an
acquire immediately undone by a release, leaving all 10 permits free. -/
theorem reach_created (k : Nat) (hk : k ≤ 11) :
    CodeReach 10 11 ⟨k, false, 0, 0, 10⟩ := by
  induction k with
  | zero => exact CodeReach.init
  | succ n ih =>
    have h1 : CodeReach 10 11 ⟨n, false, 0, 0, 10⟩ := ih (Nat.le_of_succ_le hk)
    have h2 : CodeStep 11 ⟨n, false, 0, 0, 10⟩ ⟨n, true, 0, 0, 9⟩ :=
      CodeStep.acq ⟨n, false, 0, 0, 10⟩ rfl rfl (show n < 11 by omega) (show 1 ≤ 10 by omega)
    have h3 : CodeStep 11 ⟨n, true, 0, 0, 9⟩ ⟨n + 1, false, 0, 0, 10⟩ :=
      CodeStep.rel ⟨n, true, 0, 0, 9⟩ rfl
    exact CodeReach.step (CodeReach.step h1 h2) h3

/-- After creation, gather may start any number of workflows without
consuming a permit. -/
theorem reach_started (j : Nat) (hj : j ≤ 11) :
    CodeReach 10 11 ⟨11, false, j, 0, 10⟩ := by
  induction j with
  | zero => exact reach_created 11 le_rfl
  | succ n ih =>
    have h1 : CodeReach 10 11 ⟨11, false, n, 0, 10⟩ := ih (Nat.le_of_succ_le hj)
    exact CodeReach.step h1 (CodeStep.start ⟨11, false, n, 0, 10⟩ rfl rfl (show n < 11 by omega))

/-- Evaluation of the five-cycle alert sequence of the spec example with
threshold 1: the code fires at indices 1, 2 and 4. -/
theorem runAlerts_eval :
    runAlerts 1 "BTC/USDT" spreadSeq emptyMap emptyMap
      = [false, true, true, false, true] := by
  norm_num [runAlerts, spreadSeq, process_pair, truthy, try_quanto_mappings, candidates,
    try_mappings_loop, fetch_quanto_price, envMid, mapSet, emptyMap, abs_of_nonneg]

/-! ## Claim theorems -/

/-- C1: for all positive venue-A and venue-B prices a and b, the spread
computed by the per-pair workflow equals (b - a) / a * 100 with the venue-A
price as denominator, computeSpread a a = 0, and process_pair stores exactly
computeSpread a b in the prices dict. -/
theorem spread_formula (a b : ℚ) (ha : 0 < a) (hb : 0 < b) :
    computeSpread a b = (b - a) / a * 100
    ∧ computeSpread a a = 0
    ∧ ∀ threshold symbol prices last_spread,
        (process_pair threshold symbol (some a) (envMid b) prices last_spread).prices symbol
          = some (computeSpread a b) := by
  refine ⟨rfl, by simp [computeSpread], ?_⟩
  intro threshold symbol prices last_spread
  have hbb : (b + b) / 2 = b := by ring
  have hfetch : ∀ c, fetch_quanto_price (envMid b) c = some b := by
    intro c; simp [fetch_quanto_price, envMid, hbb]
  have hq : (try_quanto_mappings (envMid b) (baseOf symbol)).2 = some b := by
    simp [try_quanto_mappings, candidates, try_mappings_loop, hfetch]
  have hta : truthy (some a) = true := by simp [truthy, ha.ne']
  have htb : truthy (some b) = true := by simp [truthy, hb.ne']
  simp [process_pair, hta, hq, htb, mapSet, computeSpread]

/-- Concrete instance of spread_formula at the end-to-end scenario prices
50000 and 50500, and at equal prices 3 and 3. -/
theorem spread_formula_witness :
    computeSpread 50000 50500 = (50500 - 50000) / 50000 * 100
    ∧ computeSpread 3 3 = 0
    ∧ (process_pair 1 "BTC/USDT" (some 50000) (envMid 50500) emptyMap emptyMap).prices "BTC/USDT"
        = some (computeSpread 50000 50500) := by
  have h1 := spread_formula 50000 50500 (by norm_num) (by norm_num)
  have h2 := spread_formula 3 3 (by norm_num) (by norm_num)
  exact ⟨h1.1, h2.2.1, h1.2.2 1 "BTC/USDT" emptyMap emptyMap⟩

/-- C2: the mapper builds exactly the six candidate market codes in the fixed
order, a usable top-of-book yields the midpoint (bid + ask) / 2, and the
mapper returns the FIRST candidate (in that order) whose lookup succeeds,
never a later one. -/
theorem mapper_first_match (env : String → DepthResult) (base_symbol : String) :
    candidates base_symbol =
      [base_symbol ++ "-USD-SWAP-LIN", base_symbol ++ "-USDT-SWAP-LIN",
       base_symbol ++ "-USD-SWAP", base_symbol ++ "-USDT-SWAP",
       base_symbol ++ "-USD", base_symbol ++ "-USDT"]
    ∧ (∀ mc bid ask, env mc = DepthResult.ok bid ask →
        fetch_quanto_price env mc = some ((bid + ask) / 2))
    ∧ try_quanto_mappings env base_symbol =
        (match (candidates base_symbol).find? (fun c => (fetch_quanto_price env c).isSome) with
         | some c => (some c, fetch_quanto_price env c)
         | none => (none, none)) := by
  refine ⟨rfl, ?_, try_mappings_loop_eq_find env (candidates base_symbol)⟩
  intro mc bid ask h
  simp [fetch_quanto_price, h]

/-- Concrete instance of mapper_first_match: with every market code answering
bid 2 / ask 4, the first candidate wins with midpoint 3. -/
theorem mapper_first_match_witness :
    fetch_quanto_price (fun _ => DepthResult.ok 2 4) "BTC-USD-SWAP-LIN" = some 3
    ∧ try_quanto_mappings (fun _ => DepthResult.ok 2 4) "BTC"
        = (some "BTC-USD-SWAP-LIN", some 3) := by
  have h := mapper_first_match (fun _ => DepthResult.ok 2 4) "BTC"
  constructor
  · rw [h.2.1 "BTC-USD-SWAP-LIN" 2 4 rfl]
    norm_num
  · rw [h.2.2]
    have hc : candidates "BTC" =
        "BTC-USD-SWAP-LIN" :: ["BTC-USDT-SWAP-LIN", "BTC-USD-SWAP", "BTC-USDT-SWAP",
          "BTC-USD", "BTC-USDT"] := by decide
    rw [hc, List.find?_cons_of_pos _ (by simp [fetch_quanto_price])]
    have h3 : fetch_quanto_price (fun _ => DepthResult.ok 2 4) "BTC-USD-SWAP-LIN" = some 3 := by
      simp [fetch_quanto_price]
      norm_num
    simp [h3]

/-- C3: each kind of failed candidate lookup yields none, the loop passes
over failing candidates without propagating any error, and if every
candidate fails the mapper returns (none, none). -/
theorem mapper_error_handling (env : String → DepthResult) (base_symbol : String) :
    (∀ mc, (env mc = DepthResult.netError ∨ env mc = DepthResult.badPayload
        ∨ env mc = DepthResult.emptyBook) → fetch_quanto_price env mc = none)
    ∧ ((∀ c ∈ candidates base_symbol, fetch_quanto_price env c = none) →
        try_quanto_mappings env base_symbol = (none, none))
    ∧ (∀ l1 c l2, candidates base_symbol = l1 ++ c :: l2 →
        (∀ d ∈ l1, fetch_quanto_price env d = none) →
        try_quanto_mappings env base_symbol = try_mappings_loop env (c :: l2)) := by
  refine ⟨?_, ?_, ?_⟩
  · rintro mc (h | h | h) <;> simp [fetch_quanto_price, h]
  · intro h
    exact try_mappings_loop_none env (candidates base_symbol) h
  · intro l1 c l2 hsplit h
    unfold try_quanto_mappings
    rw [hsplit]
    exact try_mappings_loop_append_none env l1 (c :: l2) h

/-- Concrete instance of mapper_error_handling: with every lookup failing by
network error, a single fetch is none and the mapper returns (none, none). -/
theorem mapper_error_handling_witness :
    fetch_quanto_price (fun _ => DepthResult.netError) "BTC-USD" = none
    ∧ try_quanto_mappings (fun _ => DepthResult.netError) "BTC" = (none, none) := by
  have h := mapper_error_handling (fun _ => DepthResult.netError) "BTC"
  exact ⟨h.1 "BTC-USD" (Or.inl rfl), h.2.1 (fun c _ => rfl)⟩

/-- C4: with both prices valid, the alert fires iff the spread magnitude
reaches the threshold and strictly exceeds the stored previous magnitude
(0 if absent), and the stored value is unconditionally overwritten with the
new spread, alert or not. -/
theorem alert_gating (threshold : ℚ) (symbol : String) (env : String → DepthResult)
    (prices last_spread : PriceMap) (mp qp : ℚ)
    (hmp : mp ≠ 0) (hq : (try_quanto_mappings env (baseOf symbol)).2 = some qp)
    (hqp : qp ≠ 0) :
    ((process_pair threshold symbol (some mp) env prices last_spread).alert = true
      ↔ (|(qp - mp) / mp * 100| ≥ threshold
          ∧ |(qp - mp) / mp * 100| > |(last_spread symbol).getD 0|))
    ∧ (process_pair threshold symbol (some mp) env prices last_spread).last_spread symbol
        = some ((qp - mp) / mp * 100)
    ∧ (process_pair threshold symbol (some mp) env prices last_spread).prices symbol
        = some ((qp - mp) / mp * 100) := by
  have hta : truthy (some mp) = true := by simp [truthy, hmp]
  have htb : truthy (some qp) = true := by simp [truthy, hqp]
  simp only [process_pair, hta, hq, htb, Bool.true_eq_false, if_false, Option.getD_some]
  refine ⟨?_, by simp [mapSet], by simp [mapSet]⟩
  split <;> simp_all

/-- Concrete instance of alert_gating: venue-A 100, venue-B book at 101,
threshold 1, empty state: spread 1, alert fires, stored value becomes 1. -/
theorem alert_gating_witness :
    (process_pair 1 "BTC/USDT" (some 100) (envMid 101) emptyMap emptyMap).alert = true
    ∧ (process_pair 1 "BTC/USDT" (some 100) (envMid 101) emptyMap emptyMap).last_spread
        "BTC/USDT" = some 1 := by
  have hq : (try_quanto_mappings (envMid 101) (baseOf "BTC/USDT")).2 = some 101 := by
    norm_num [try_quanto_mappings, candidates, try_mappings_loop, fetch_quanto_price, envMid]
  have h := alert_gating 1 "BTC/USDT" (envMid 101) emptyMap emptyMap 100 101
    (by norm_num) hq (by norm_num)
  constructor
  · rw [h.1]
    norm_num [emptyMap, abs_of_nonneg]
  · rw [h.2.1]
    norm_num

/-- C5 as stated is false on the code: over the spread sequence
[0.5, 1.2, 1.3, 0.9, 1.4] with threshold 1 the alert at index 2 also fires,
because 1.3 meets the threshold and exceeds the stored 1.2. -/
theorem alert_sequence_counterexample :
    runAlerts 1 "BTC/USDT" spreadSeq emptyMap emptyMap
      ≠ [false, true, false, false, true] := by
  rw [runAlerts_eval]
  simp

/-- C5 amended: over the spread sequence [0.5, 1.2, 1.3, 0.9, 1.4] with
threshold 1 and initially empty state, alerts fire exactly at indices 1, 2
and 4, and not at indices 0 and 3. -/
theorem alert_sequence_amended :
    runAlerts 1 "BTC/USDT" spreadSeq emptyMap emptyMap
      = [false, true, true, false, true] :=
  runAlerts_eval

/-- C6: a falsy venue-A price (missing or zero) makes the per-pair workflow
skip the pair: no prices entry, no stored-spread update, no alert. -/
theorem skip_on_falsy_venueA (threshold : ℚ) (symbol : String)
    (env : String → DepthResult) (prices last_spread : PriceMap)
    (mexc_p : Option ℚ) (h : mexc_p = none ∨ mexc_p = some 0) :
    process_pair threshold symbol mexc_p env prices last_spread
      = ⟨prices, last_spread, false⟩ := by
  rcases h with h | h <;> subst h <;> simp [process_pair, truthy]

/-- Concrete instance of skip_on_falsy_venueA at a missing and at a zero
venue-A price. -/
theorem skip_on_falsy_venueA_witness :
    process_pair 1 "BTC/USDT" none (envMid 101) emptyMap emptyMap
      = ⟨emptyMap, emptyMap, false⟩
    ∧ process_pair 1 "BTC/USDT" (some 0) (envMid 101) emptyMap emptyMap
      = ⟨emptyMap, emptyMap, false⟩ :=
  ⟨skip_on_falsy_venueA 1 "BTC/USDT" (envMid 101) emptyMap emptyMap none (Or.inl rfl),
   skip_on_falsy_venueA 1 "BTC/USDT" (envMid 101) emptyMap emptyMap (some 0) (Or.inr rfl)⟩

/-- C7: an exception raised at any stage of the per-pair unit is caught
inside it: the result is a plain skip with both dicts untouched and no
alert, it never propagates, the exception-free run agrees with the plain
workflow, and in every case keys of other pairs are untouched. -/
theorem exception_containment (inject : Option Stage) (threshold : ℚ) (symbol : String)
    (mexc_p : Option ℚ) (env : String → DepthResult) (prices last_spread : PriceMap) :
    (inject ≠ none →
      process_pair_caught inject threshold symbol mexc_p env prices last_spread
        = ⟨prices, last_spread, false⟩)
    ∧ process_pair_caught none threshold symbol mexc_p env prices last_spread
        = process_pair threshold symbol mexc_p env prices last_spread
    ∧ ∀ s, s ≠ symbol →
        (process_pair_caught inject threshold symbol mexc_p env prices last_spread).prices s
          = prices s
        ∧ (process_pair_caught inject threshold symbol mexc_p env
            prices last_spread).last_spread s = last_spread s := by
  refine ⟨?_, process_pair_caught_none threshold symbol mexc_p env prices last_spread, ?_⟩
  · intro hne
    cases inject with
    | none => exact absurd rfl hne
    | some st => exact process_pair_caught_inject st threshold symbol mexc_p env prices last_spread
  · intro s hs
    cases inject with
    | none =>
      rw [process_pair_caught_none threshold symbol mexc_p env prices last_spread]
      exact process_pair_other_keys threshold symbol mexc_p env prices last_spread s hs
    | some st =>
      rw [process_pair_caught_inject st threshold symbol mexc_p env prices last_spread]
      exact ⟨rfl, rfl⟩

/-- Concrete instance of exception_containment: an exception at the
arithmetic stage yields a pure skip, and the uninjected run leaves the key
of a different pair untouched. -/
theorem exception_containment_witness :
    process_pair_caught (some Stage.arith) 1 "BTC/USDT" (some 100) (envMid 101)
      emptyMap emptyMap = ⟨emptyMap, emptyMap, false⟩
    ∧ (process_pair_caught none 1 "BTC/USDT" (some 100) (envMid 101)
        emptyMap emptyMap).prices "ETH/USDT" = emptyMap "ETH/USDT" := by
  have h1 := exception_containment (some Stage.arith) 1 "BTC/USDT" (some 100) (envMid 101)
    emptyMap emptyMap
  have h2 := exception_containment none 1 "BTC/USDT" (some 100) (envMid 101)
    emptyMap emptyMap
  exact ⟨h1.1 (by simp), (h2.2.2 "ETH/USDT" (by decide)).1⟩

/-- C8 is false on the code: process_pair only ever writes the poll_loop
dicts and never prices_cache, the dict that the dashboard endpoint serves;
after a fully successful per-pair run (venue-A 50000, book 50400/50600, so
spread 1) the loop dict holds the spread but the endpoint still serves the
initial empty cache. -/
theorem dashboard_cache_never_updated :
    (∀ threshold symbol mexc_p env st,
        api_prices (process_pair_state threshold symbol mexc_p env st).1 = api_prices st)
    ∧ (process_pair_state 1 "BTC/USDT" (some 50000) (fun _ => DepthResult.ok 50400 50600)
        ⟨emptyMap, emptyMap, emptyMap⟩).1.prices "BTC/USDT" = some 1
    ∧ api_prices (process_pair_state 1 "BTC/USDT" (some 50000)
        (fun _ => DepthResult.ok 50400 50600) ⟨emptyMap, emptyMap, emptyMap⟩).1 "BTC/USDT"
      = none := by
  refine ⟨fun _ _ _ _ _ => rfl, ?_, rfl⟩
  norm_num [process_pair_state, process_pair, truthy, try_quanto_mappings, candidates,
    try_mappings_loop, fetch_quanto_price, mapSet]

/-- C9 is false on the code: with 11 pairs and concurrency limit 10, the
cycle reaches a state with all 11 workflows started and none finished, 11 in
flight, while all 10 permits are free, because the semaphore is acquired and
released only around appending each coroutine, not around running it. -/
theorem semaphore_not_enforced :
    CodeReach 10 11 ⟨11, false, 11, 0, 10⟩ ∧ 10 < 11 - 0 :=
  ⟨reach_started 11 le_rfl, by norm_num⟩

/-- C10: with a valid venue-A price, a none or zero mapper mid price makes
process_pair skip the pair with no writes and no alert; and a candidate whose
best bid and best ask are both zero is accepted by the mapper, stopping the
search with mid price 0, which the caller then skips. -/
theorem zero_mid_skip (threshold : ℚ) (symbol : String) (mexc_p : Option ℚ)
    (env : String → DepthResult) (prices last_spread : PriceMap)
    (hA : truthy mexc_p = true) :
    (((try_quanto_mappings env (baseOf symbol)).2 = none
        ∨ (try_quanto_mappings env (baseOf symbol)).2 = some 0) →
      process_pair threshold symbol mexc_p env prices last_spread
        = ⟨prices, last_spread, false⟩)
    ∧ ∀ l1 c l2, candidates (baseOf symbol) = l1 ++ c :: l2 →
        (∀ d ∈ l1, fetch_quanto_price env d = none) →
        env c = DepthResult.ok 0 0 →
        try_quanto_mappings env (baseOf symbol) = (some c, some 0)
        ∧ process_pair threshold symbol mexc_p env prices last_spread
            = ⟨prices, last_spread, false⟩ := by
  have skip1 : truthy (try_quanto_mappings env (baseOf symbol)).2 = false →
      process_pair threshold symbol mexc_p env prices last_spread
        = ⟨prices, last_spread, false⟩ := by
    intro hf
    simp [process_pair, hA, hf]
  refine ⟨?_, ?_⟩
  · rintro (h | h) <;> exact skip1 (by simp [h, truthy])
  · intro l1 c l2 hsplit hfail hzero
    have hfc : fetch_quanto_price env c = some 0 := by
      simp [fetch_quanto_price, hzero]
    have hmap : try_quanto_mappings env (baseOf symbol) = (some c, some 0) := by
      unfold try_quanto_mappings
      rw [hsplit, try_mappings_loop_append_none env l1 (c :: l2) hfail]
      simp [try_mappings_loop, hfc]
    exact ⟨hmap, skip1 (by simp [hmap, truthy])⟩

/-- Concrete instance of zero_mid_skip: every candidate answers a zero book,
the first candidate is accepted with mid price 0, and the pair is skipped. -/
theorem zero_mid_skip_witness :
    try_quanto_mappings (fun _ => DepthResult.ok 0 0) (baseOf "BTC/USDT")
      = (some (baseOf "BTC/USDT" ++ "-USD-SWAP-LIN"), some 0)
    ∧ process_pair 1 "BTC/USDT" (some 100) (fun _ => DepthResult.ok 0 0) emptyMap emptyMap
      = ⟨emptyMap, emptyMap, false⟩ := by
  have h := zero_mid_skip 1 "BTC/USDT" (some 100) (fun _ => DepthResult.ok 0 0)
    emptyMap emptyMap (by norm_num [truthy])
  have h2 := h.2 [] (baseOf "BTC/USDT" ++ "-USD-SWAP-LIN")
    [baseOf "BTC/USDT" ++ "-USDT-SWAP-LIN", baseOf "BTC/USDT" ++ "-USD-SWAP",
     baseOf "BTC/USDT" ++ "-USDT-SWAP", baseOf "BTC/USDT" ++ "-USD",
     baseOf "BTC/USDT" ++ "-USDT"]
    rfl (fun d hd => absurd hd (List.not_mem_nil d)) rfl
  exact ⟨h2.1, h2.2⟩

end Bot
